import Mathlib

/-
Verification development for the JIVA Groundwater Chatbot backend (app.py).

The core under study is the data-lookup routine `get_data_lookup_response`,
together with the FAQ matcher `get_faq_response` and the chat dispatch logic.
Python strings are modelled as Lean `String`, pandas DataFrames as a list of
column names plus a list of rows (each row a list of cells), pandas cell
values as a `Cell` (missing / text / numeric), and Python floats as exact
rationals `Q` (the spec treats the figures as exact reals; every concrete
scenario below uses values exact at two decimals, where float rounding and
rational rounding agree).  Code that can raise a Python exception is
modelled with `Except PyErr`.
-/

/-! ### String primitives (Python `in`, regex `\b` matching) -/

/-- `listStartsWith p t` : `p` is a prefix of `t` (Python startswith on char lists). -/
def listStartsWith : List Char → List Char → Bool
  | [], _ => true
  | _ :: _, [] => false
  | p :: ps, t :: ts => p == t && listStartsWith ps ts

/-- `listHasSub p t` : `p` occurs as a contiguous sublist of `t`
(Python `p in t` for strings). -/
def listHasSub (pat : List Char) : List Char → Bool
  | [] => listStartsWith pat []
  | c :: ts => listStartsWith pat (c :: ts) || listHasSub pat ts

/-- Python `pat in text` on strings. -/
def inStr (pat text : String) : Bool :=
  listHasSub pat.toList text.toList

/-- A regex word character (`\w` for the ASCII queries at hand): `[A-Za-z0-9_]`. -/
def isWordChar (c : Char) : Bool := c.isAlphanum || c == '_'

/-- Whether the character at index `i` of `text` is a word character
(out of range counts as non-word, as at the ends of a regex subject). -/
def wordAt (text : List Char) (i : Nat) : Bool :=
  match text.get? i with
  | some c => isWordChar c
  | none => false

/-- Python regex `\b`: a word boundary holds at position `p` of `text` iff
exactly one of the characters around the position is a word character. -/
def boundaryAt (text : List Char) (p : Nat) : Bool :=
  (if p = 0 then false else wordAt text (p - 1)) != wordAt text p

/-- The pattern `\b pat \b` (with `pat` literal) matches `text` at position `j`. -/
def boundaryMatchAt (text pat : List Char) (j : Nat) : Bool :=
  listStartsWith pat (text.drop j) && boundaryAt text j && boundaryAt text (j + pat.length)

/-- Lowercase every character of a char list. -/
def lowerL (cs : List Char) : List Char := cs.map Char.toLower

/-- Python `str.lower()` (the data at hand is ASCII). -/
def pyLower (s : String) : String := String.mk (lowerL s.toList)

/-- Drop whitespace from both ends of a char list. -/
def trimL (cs : List Char) : List Char :=
  ((cs.dropWhile Char.isWhitespace).reverse.dropWhile Char.isWhitespace).reverse

/-- Python `str.strip()`. -/
def pyStrip (s : String) : String := String.mk (trimL s.toList)

/-- `re.search(r'\b' + re.escape(pat) + r'\b', text)` succeeds (case-sensitive). -/
def reWordSearch (text pat : List Char) : Bool :=
  (List.range (text.length + 1)).any (fun j => boundaryMatchAt text pat j)

/-- `series.str.contains(r'\b'+re.escape(unit)+r'\b', case=False)` for one cell
already rendered to a string: case-insensitive whole-word containment.
Lowercasing does not change word-character status, so folding both sides
is equivalent to the engine's case-insensitive flag. -/
def cellMatchesUnit (cell unit : String) : Bool :=
  reWordSearch (lowerL cell.toList) (lowerL unit.toList)

/-- `re.search(YEAR_REGEX_PATTERN, query)` for the pattern `\b(y1|y2|...)\b`:
the leftmost position wins; at a position, alternatives are tried in list
order.  Returns the matched year text. -/
def findYearMatch (alts : List String) (q : String) : Option String :=
  (List.range (q.toList.length + 1)).findSome?
    (fun j => alts.find? (fun y => boundaryMatchAt q.toList y.toList j))

/-- Python `str.title()`: an alphabetic character is uppercased when the
previous character is not alphabetic, lowercased otherwise. -/
def titleCaseAux : Bool → List Char → List Char
  | _, [] => []
  | prevAlpha, c :: cs =>
      (if c.isAlpha then (if prevAlpha then c.toLower else c.toUpper) else c)
        :: titleCaseAux c.isAlpha cs

/-- Python `str.title()`. -/
def titleCase (s : String) : String := String.mk (titleCaseAux false s.toList)

/-! ### Configuration (app.py section 1) -/

/-- `normalize_column_name`: strip, then remove every space character. -/
def normalize_column_name (s : String) : String :=
  String.mk ((pyStrip s).toList.filter (fun c => c ≠ ' '))

def COL_STATE_RAW : String := "State"
def COL_DISTRICT_RAW : String := "District"
def COL_CATEGORY_RAW : String := "Categorization (OE/Critical/Semicritical/Safe)"
def COL_EXTRACTION_RAW : String := "Annual Extractable Ground Water Resource (Ham)"
def COL_PERCENTAGE_RAW : String := "Percentage"

def COL_STATE_NORM : String := normalize_column_name COL_STATE_RAW
def COL_DISTRICT_NORM : String := normalize_column_name COL_DISTRICT_RAW
def COL_CATEGORY_NORM : String := normalize_column_name COL_CATEGORY_RAW
def COL_EXTRACTION_NORM : String := normalize_column_name COL_EXTRACTION_RAW
def COL_PERCENTAGE_NORM : String := normalize_column_name COL_PERCENTAGE_RAW

/-- The hardcoded list of known state names of `get_data_lookup_response`,
verbatim (including the padded entry for Meghalaya and the abbreviations). -/
def known_states : List String :=
  ["ANDAMAN AND NICOBAR ISLANDS", "ANDHRA PRADESH", "ARUNACHAL PRADESH",
   "ASSAM", "BIHAR", "CHANDIGARH", "CHHATTISGARH", "DADRA AND NAGAR HAVELI",
   "DAMAN AND DIU", "DELHI", "GOA", "GUJARAT", "HARYANA", "HIMACHAL PRADESH",
   "JAMMU AND KASHMIR", "JHARKHAND", "KARNATAKA", "KERALA", "LADAKH",
   "LAKSHDWEEP", "MADHYA PRADESH", "MAHARASHTRA", "MANIPUR", " MEGHALAYA ",
   "MIZORAM", "NAGALAND", "ODISHA", "PUDUCHERRY", "PUNJAB", "RAJASTHAN",
   "SIKKIM", "TAMILNADU", "TELANGANA", "TRIPURA", "UTTAR PRADESH",
   "UTTARAKHAND", "WEST BENGAL", "UP", "MP", "AP", "TS"]

/-- The fixed severity-priority list of step 5 of the lookup. -/
def severity_order : List String :=
  ["Over Exploited", "Critical", "Semi Critical", "Safe"]

/-- The FAQ keyword table, in insertion order. -/
def faq_responses : List (String × String) :=
  [("what is ingres",
    "INGRES is the India Ground Water Resource Estimation System, a GIS-based platform developed by CGWB and IIT Hyderabad for groundwater assessment."),
   ("categorization definition",
    "Groundwater units are categorized based on the ratio of annual extraction to recharge (e.g., Safe, Critical, Over Exploited)."),
   ("annual extractable resource",
    "This refers to the total volume of groundwater (in Ham) estimated to be available for withdrawal in a given year."),
   ("who developed ingres",
    "INGRES was developed by the Central Ground Water Board (CGWB) in collaboration with IIT Hyderabad.")]

/-! ### Exact numbers (Python floats, which are exact in every scenario here) -/

/-- An exact rational `num / den` (denominator positive by construction;
kept unnormalized so that all arithmetic is plain integer arithmetic). -/
structure Q where
  num : Int
  den : Nat
deriving DecidableEq, Repr

/-- Embed an integer. -/
def Q.ofInt (n : Int) : Q := ⟨n, 1⟩

/-- Addition. -/
def Q.add (a b : Q) : Q := ⟨a.num * (b.den : Int) + b.num * (a.den : Int), a.den * b.den⟩

/-- Sum of a list (Python `Series.sum()` over the non-missing values). -/
def qSum (l : List Q) : Q := l.foldr Q.add (Q.ofInt 0)

/-- Division by a positive count (for the mean). -/
def Q.divNat (a : Q) (n : Nat) : Q := ⟨a.num, a.den * n⟩

/-- Multiplication by 100 (percentage rendering). -/
def Q.mul100 (a : Q) : Q := ⟨a.num * 100, a.den⟩

/-- Negation. -/
def Q.neg (a : Q) : Q := ⟨-a.num, a.den⟩

/-- Python `x == 0` on the exact value. -/
def Q.isZero (a : Q) : Bool := a.num == 0

/-! ### Data model (pandas DataFrames handed to the core) -/

/-- A pandas cell: missing (NaN), a text value, or a numeric value. -/
inductive Cell
  | na
  | str (s : String)
  | num (q : Q)
deriving DecidableEq, Repr

/-- A loaded sheet: normalized column names plus rows of cells (a row is
read positionally against `cols`; pandas guarantees alignment). -/
structure DataFrame where
  cols : List String
  rows : List (List Cell)
deriving DecidableEq, Repr

/-- Cell of a row at column index `i` (missing when out of range). -/
def getCell (row : List Cell) (i : Nat) : Cell := row.getD i Cell.na

/-- `df.get(c)` restricted to a row set sharing `cols`: the column of cells
when the column name exists, `none` otherwise (pandas returns `None`). -/
def colCells (cols : List String) (rows : List (List Cell)) (c : String) :
    Option (List Cell) :=
  (cols.findIdx? (fun x => x == c)).map (fun i => rows.map (fun row => getCell row i))

/-- `ingres_data_dict[y]` access with a containment check. -/
def lookupYear (ds : List (String × DataFrame)) (y : String) : Option DataFrame :=
  (ds.find? (fun p => p.1 == y)).map (fun p => p.2)

/-- The module-level state the lookup reads: the regex alternatives of
`YEAR_REGEX_PATTERN`, `ingres_data_dict`, `LOADED_YEARS` and `DEFAULT_YEAR`.
After a successful load the alternatives and `LOADED_YEARS` both equal the
dictionary keys; before (or after a failed load) the alternatives are the
five configured sheet names while `LOADED_YEARS` and the dictionary are empty. -/
structure AppState where
  yearAlts : List String
  dataset : List (String × DataFrame)
  loadedYears : List String
  defaultYear : String
deriving Repr

/-- A Python exception escaping the routine. -/
inductive PyErr
  | attributeError
  | keyError
  | indexError
deriving DecidableEq, Repr

/-! ### Numeric coercion and formatting -/

/-- Value of a digit run (`none` on a non-digit). -/
def digitsToNatAux : List Char → Nat → Option Nat
  | [], acc => some acc
  | c :: cs, acc =>
      if c.isDigit then digitsToNatAux cs (acc * 10 + (c.toNat - 48)) else none

/-- Parse an unsigned decimal numeral `ddd`, `ddd.ddd`, `.ddd` or `ddd.`. -/
def parseUnsigned (cs : List Char) : Option Q :=
  let ip := cs.takeWhile (fun c => c != '.')
  let rest := cs.dropWhile (fun c => c != '.')
  match rest with
  | [] =>
      if ip.isEmpty then none
      else (digitsToNatAux ip 0).map (fun n => Q.ofInt (n : Int))
  | _ :: frac =>
      if ip.isEmpty && frac.isEmpty then none
      else
        match digitsToNatAux ip 0, digitsToNatAux frac 0 with
        | some n, some f =>
            some ⟨(n : Int) * (10 ^ frac.length : Nat) + (f : Int), 10 ^ frac.length⟩
        | _, _ => none

/-- Numeric parse of a string as `pd.to_numeric(…, errors='coerce')` performs
on text cells: strip, optional sign, decimal numeral; otherwise missing. -/
def parseNumeric (s : String) : Option Q :=
  match (pyStrip s).toList with
  | '-' :: cs => (parseUnsigned cs).map Q.neg
  | '+' :: cs => parseUnsigned cs
  | cs => parseUnsigned cs

/-- `pd.to_numeric(cell, errors='coerce')`: numeric cells pass through, text
cells are parsed, missing (and unparseable) become NaN, modelled as `none`. -/
def toNumeric : Cell → Option Q
  | Cell.na => none
  | Cell.num q => some q
  | Cell.str s => parseNumeric s

/-- Whether a cell is missing (`pd.isna`). -/
def isNa : Cell → Bool
  | Cell.na => true
  | _ => false

/-- `str(cell)` as `astype(str)` renders it: NaN prints as "nan"; numbers
are rendered from the rational (every text-position cell in the scenarios
modelled here is a string, so this branch is not exercised). -/
def cellToStr : Cell → String
  | Cell.na => "nan"
  | Cell.str s => s
  | Cell.num q =>
      if q.den = 1 then toString q.num ++ ".0"
      else toString q.num ++ "/" ++ toString q.den

/-- Round `100*q` to an integer, ties to even, as Python float formatting
`%.2f` rounds its (exact at two decimals in every scenario here) argument:
with `a = 100*num` and `b = den`, floor `a/b` and compare twice the
remainder with the denominator. -/
def roundHundredths (q : Q) : Int :=
  let a := q.num * 100
  let b := (q.den : Int)
  let n := Int.fdiv a b
  let r := a - n * b
  if 2 * r < b then n
  else if b < 2 * r then n + 1
  else if n % 2 = 0 then n else n + 1

/-- Insert a comma after every three characters of a reversed digit list. -/
def groupRev : List Char → List Char
  | c1 :: c2 :: c3 :: c4 :: rest => c1 :: c2 :: c3 :: ',' :: groupRev (c4 :: rest)
  | l => l

/-- Two-digit zero-padded fraction part. -/
def fracPad (fr : Nat) : String :=
  if fr < 10 then "0" ++ toString fr else toString fr

/-- Python `f"{x:,.2f}"`: thousands-separated, two decimals. -/
def fmtComma2 (q : Q) : String :=
  let n := roundHundredths q
  let m := n.natAbs
  let ipStr := String.mk ((groupRev (toString (m / 100)).toList.reverse).reverse)
  (if n < 0 then "-" else "") ++ ipStr ++ "." ++ fracPad (m % 100)

/-- Python `f"{x:.2f}"`: plain two decimals. -/
def fmt2 (q : Q) : String :=
  let n := roundHundredths q
  let m := n.natAbs
  (if n < 0 then "-" else "") ++ toString (m / 100) ++ "." ++ fracPad (m % 100)

/-! ### The data-lookup routine (app.py `get_data_lookup_response`) -/

/-- Stable insertion of a string into a list already sorted by descending
length: `x` is placed before the first element that is not strictly longer.
Since `x` always precedes its own tail in the original list, equal-length
candidates keep their original relative order, as Python's stable
`sorted` does. -/
def insertByLenDesc (x : String) : List String → List String
  | [] => [x]
  | y :: ys => if x.length < y.length then y :: insertByLenDesc x ys else x :: y :: ys

/-- Python `sorted(l, key=len, reverse=True)`: stable descending-length sort. -/
def sortByLenDesc : List String → List String
  | [] => []
  | x :: xs => insertByLenDesc x (sortByLenDesc xs)

/-- `pandas.Series.unique()`: deduplication keeping first occurrences. -/
def dedupAux (seen : List String) : List String → List String
  | [] => []
  | x :: xs => if x ∈ seen then dedupAux seen xs else x :: dedupAux (x :: seen) xs

/-- Deduplicate keeping first occurrences. -/
def dedup (l : List String) : List String := dedupAux [] l

/-- Step ii.A of the lookup: if the year's table has a district column,
render its cells to strings, strip, deduplicate, sort longest-first, and
take the first district whose lowercase form is a substring of the
lowercased query (plain containment, no word boundaries). -/
def extractDistrict (df : DataFrame) (query_lower : String) : Option String :=
  match colCells df.cols df.rows COL_DISTRICT_NORM with
  | none => none
  | some cells =>
      let all_districts := dedup (cells.map (fun c => pyStrip (cellToStr c)))
      (sortByLenDesc all_districts).find? (fun d => inStr (pyLower d) query_lower)

/-- Step ii.B of the lookup: first (longest) known state whose lowercase
form is a substring of the lowercased query (plain containment). -/
def extractState (query_lower : String) : Option String :=
  (sortByLenDesc known_states).find? (fun s => inStr (pyLower s) query_lower)

/-- Step iii.1: keep the rows whose search-column cell contains the unit as
a whole word, case-insensitively (`str.contains(r'\b'+unit+r'\b', case=False)`). -/
def filterRows (rows : List (List Cell)) (cells : List Cell) (unit : String) :
    List (List Cell) :=
  ((rows.zip cells).filter (fun p => cellMatchesUnit (cellToStr p.2) unit)).map
    (fun p => p.1)

/-- Step iii.2: for a district query with a state column, title-case the
state cell of the first matched row; a non-string cell makes Python's
`.title()` raise `AttributeError`, an empty row set makes `.iloc[0]` raise
`IndexError` (unreachable from the caller, which rejects empty matches). -/
def parentStateStr (is_state_query : Bool) (cols : List String)
    (rows : List (List Cell)) : Except PyErr String :=
  if is_state_query then Except.ok ""
  else
    match colCells cols rows COL_STATE_NORM with
    | none => Except.ok ""
    | some [] => Except.error PyErr.indexError
    | some (c :: _) =>
        match c with
        | Cell.str s => Except.ok (" (in " ++ titleCase s ++ ")")
        | _ => Except.error PyErr.attributeError

/-- Step iii.3: the displayed extraction total. -/
def extractionStr (cols : List String) (rows : List (List Cell)) : String :=
  match colCells cols rows COL_EXTRACTION_NORM with
  | none => "Extraction Column Not Found (Expected: " ++ COL_EXTRACTION_RAW ++ ")"
  | some cells =>
      let nums := cells.filterMap toNumeric
      if (qSum nums).isZero && nums.isEmpty then "Data unavailable or zero"
      else fmtComma2 (qSum nums)

/-- Step iii.4: the displayed average percentage. -/
def percentageStr (cols : List String) (rows : List (List Cell)) : String :=
  match colCells cols rows COL_PERCENTAGE_NORM with
  | none => "Percentage Column Not Found (Expected: " ++ COL_PERCENTAGE_RAW ++ ")"
  | some cells =>
      let nums := cells.filterMap toNumeric
      if nums.isEmpty then "Data unavailable"
      else fmt2 (Q.mul100 ((qSum nums).divNat nums.length)) ++ "%"

/-- Step iii.5 inner scan: first severity label occurring (case-insensitive
substring) in any observed category value, else "Mixed/Uncategorized". -/
def severityScan (statuses : List String) : String :=
  (severity_order.find?
    (fun s => statuses.any (fun status => inStr (pyLower s) (pyLower status)))).getD
    "Mixed/Uncategorized"

/-- Step iii.5: `unit_data.get(category_col).dropna().astype(str).unique()`
fed to the severity scan; when the category column is absent, `.get` yields
`None` and the immediate `.dropna()` raises `AttributeError`. -/
def overallStatusOf (cols : List String) (rows : List (List Cell)) :
    Except PyErr String :=
  match colCells cols rows COL_CATEGORY_NORM with
  | none => Except.error PyErr.attributeError
  | some cells =>
      Except.ok (severityScan (dedup ((cells.filter (fun c => !isNa c)).map cellToStr)))

/-- The year-not-available message of step i. -/
def yearNotAvailableMsg (y : String) (loaded : List String) : String :=
  "I found the year " ++ y ++ " in your query, but I only have data for: " ++
    String.intercalate ", " loaded ++ ". Please try another year."

/-- The two fallback messages when no unit is recognized. -/
def noUnitMsg (query_lower : String) : String :=
  if inStr "extraction" query_lower || inStr "percentage" query_lower ||
      inStr "data" query_lower then
    "I can answer data queries, but please specify an **Indian State or District** and optionally a **Year**."
  else
    "I can only provide data on State or District-level groundwater categorization and general INGRES terminology. Please specify an Indian State or District."

/-- The unit-not-found message of step iii.1. -/
def unitNotFoundMsg (unit_name target_year : String) : String :=
  "I could not find the unit \x27" ++ titleCase unit_name ++ "\x27 in the " ++
    target_year ++ " sheet. Please check the spelling."

/-- Step iv: the formatted summary string. -/
def responseText (unit_type unit_name parent_state target_year overall_status
    avg_percentage_str total_extraction_str : String) (n : Nat) : String :=
  "**INGRES " ++ unit_type ++ " for " ++ titleCase unit_name ++ parent_state ++
    " (" ++ target_year ++ "):**\n" ++
  "• **Most Severe Groundwater Status:** " ++ overall_status ++ "\n" ++
  "• **Average Extraction Percentage:** " ++ avg_percentage_str ++ "\n" ++
  "• **TOTAL Annual Extractable Resource (Ham):** " ++ total_extraction_str ++ "\n" ++
  "(Aggregated from " ++ toString n ++ " assessment units.)"

/-- `get_data_lookup_response(query)` against the module state `st`:
extract a year (defaulting), resolve the year's table, extract a unit
(district first, then state), filter the rows word-boundary-wise, and
aggregate.  The district dispatch mirrors Python's `if unit_name:`
truthiness test: an empty-string district match (possible only from a
whitespace-only district cell, whose stripped form substring-matches every
query) is falsy, so the code falls through to the state branch exactly as
when no district matched.  `Except.ok` carries every returned message;
`Except.error` marks the points where the Python code raises. -/
def get_data_lookup_response (st : AppState) (query : String) :
    Except PyErr String :=
  match lookupYear st.dataset ((findYearMatch st.yearAlts query).getD st.defaultYear) with
  | none =>
      Except.ok (yearNotAvailableMsg
        ((findYearMatch st.yearAlts query).getD st.defaultYear) st.loadedYears)
  | some target_df =>
      match
        (match extractDistrict target_df (pyLower query) with
         | some d =>
             if d = "" then
               (extractState (pyLower query)).map (fun s => (s, COL_STATE_NORM, true))
             else some (d, COL_DISTRICT_NORM, false)
         | none =>
             (extractState (pyLower query)).map (fun s => (s, COL_STATE_NORM, true)))
      with
      | none => Except.ok (noUnitMsg (pyLower query))
      | some (unit_name, search_col, is_state_query) =>
          match colCells target_df.cols target_df.rows search_col with
          | none => Except.error PyErr.keyError
          | some searchCells =>
              match filterRows target_df.rows searchCells unit_name with
              | [] =>
                  Except.ok (unitNotFoundMsg unit_name
                    ((findYearMatch st.yearAlts query).getD st.defaultYear))
              | r :: rs =>
                  match parentStateStr is_state_query target_df.cols (r :: rs) with
                  | Except.error e => Except.error e
                  | Except.ok parent_state =>
                      match overallStatusOf target_df.cols (r :: rs) with
                      | Except.error e => Except.error e
                      | Except.ok overall_status =>
                          Except.ok (responseText
                            (if is_state_query then "State Summary"
                             else "District/Unit Summary")
                            unit_name parent_state
                            ((findYearMatch st.yearAlts query).getD st.defaultYear)
                            overall_status
                            (percentageStr target_df.cols (r :: rs))
                            (extractionStr target_df.cols (r :: rs))
                            (r :: rs).length)

/-- `get_faq_response(query)`: first keyword (insertion order) contained in
the lowercased query, else no match. -/
def get_faq_response (query : String) : Option String :=
  (faq_responses.find? (fun kv => inStr kv.1 (pyLower query))).map (fun kv => kv.2)

/-- The dispatch of the `/chat` handler once the request carries a message
and data is loaded: FAQ first, short-circuiting the data lookup. -/
def chatRespond (st : AppState) (query : String) : Except PyErr String :=
  match get_faq_response query with
  | some r => Except.ok r
  | none => get_data_lookup_response st query

/-! ### Reference scan from the spec's words, and concrete fixtures -/

/-- The overall-status rule as §4.2 step 6 words it, for comparison with the
code's `severityScan`: scan Over Exploited, Critical, Semi Critical, Safe in
that order and return the first whose label occurs (case-insensitive
substring) in any observed category value, else "Mixed/Uncategorized". -/
def specSeverityScan (statuses : List String) : String :=
  if statuses.any (fun status => inStr (pyLower "Over Exploited") (pyLower status)) then
    "Over Exploited"
  else if statuses.any (fun status => inStr (pyLower "Critical") (pyLower status)) then
    "Critical"
  else if statuses.any (fun status => inStr (pyLower "Semi Critical") (pyLower status)) then
    "Semi Critical"
  else if statuses.any (fun status => inStr (pyLower "Safe") (pyLower status)) then
    "Safe"
  else "Mixed/Uncategorized"

/-- The full normalized schema of a data sheet. -/
def colsA : List String :=
  [COL_STATE_NORM, COL_DISTRICT_NORM, COL_CATEGORY_NORM, COL_EXTRACTION_NORM,
   COL_PERCENTAGE_NORM]

/-- Rajkot row: extraction 7000.25 Ham, percentage 0.40. -/
def rowG1 : List Cell :=
  [Cell.str "GUJARAT", Cell.str "Rajkot", Cell.str "Safe",
   Cell.num ⟨700025, 100⟩, Cell.num ⟨40, 100⟩]

/-- Jamnagar row: extraction 5345.35 Ham, percentage 0.50. -/
def rowG2 : List Cell :=
  [Cell.str "GUJARAT", Cell.str "Jamnagar", Cell.str "Critical",
   Cell.num ⟨534535, 100⟩, Cell.num ⟨50, 100⟩]

/-- Moga row: extraction and percentage missing. -/
def rowP1 : List Cell :=
  [Cell.str "PUNJAB", Cell.str "Moga", Cell.str "Over Exploited", Cell.na, Cell.na]

/-- A small well-formed sheet. -/
def df2025 : DataFrame := ⟨colsA, [rowG1, rowG2, rowP1]⟩

/-- A post-load state: the five configured sheets all loaded (sharing the
sample sheet), pattern alternatives and loaded years both the sheet names. -/
def stA : AppState :=
  ⟨["2025", "2024", "2023", "2022", "2020"],
   [("2025", df2025), ("2024", df2025), ("2023", df2025), ("2022", df2025),
    ("2020", df2025)],
   ["2025", "2024", "2023", "2022", "2020"], "2025"⟩

/-- The state cells of `df2025` (its `State` column). -/
def scellsA : List Cell := [Cell.str "GUJARAT", Cell.str "GUJARAT", Cell.str "PUNJAB"]

/-- A sheet whose headers lack the category column. -/
def dfNoCat : DataFrame :=
  ⟨[COL_STATE_NORM, COL_EXTRACTION_NORM, COL_PERCENTAGE_NORM],
   [[Cell.str "PUNJAB", Cell.num ⟨100, 1⟩, Cell.num ⟨1, 2⟩]]⟩

/-- A post-load state over the category-free sheet. -/
def stNoCat : AppState :=
  ⟨["2025", "2024", "2023", "2022", "2020"],
   [("2025", dfNoCat), ("2024", dfNoCat), ("2023", dfNoCat), ("2022", dfNoCat),
    ("2020", dfNoCat)],
   ["2025", "2024", "2023", "2022", "2020"], "2025"⟩

/-- A sheet whose only row has a missing (non-string) state cell. -/
def dfBadState : DataFrame :=
  ⟨colsA, [[Cell.na, Cell.str "Moga", Cell.str "Safe", Cell.num ⟨100, 1⟩, Cell.na]]⟩

/-- A post-load state over the bad-state-cell sheet. -/
def stBad : AppState :=
  ⟨["2025", "2024", "2023", "2022", "2020"],
   [("2025", dfBadState), ("2024", dfBadState), ("2023", dfBadState),
    ("2022", dfBadState), ("2020", dfBadState)],
   ["2025", "2024", "2023", "2022", "2020"], "2025"⟩

/-- The module state before (or after a failed) load: static pattern over
the five configured sheet names, empty dictionary and loaded-years list. -/
def stInit : AppState :=
  ⟨["2025", "2024", "2023", "2022", "2020"], [], [], "2025"⟩

/-- Rows carrying only percentage measurements 0.10, missing, 0.20. -/
def rowsPct : List (List Cell) :=
  [[Cell.str "GUJARAT", Cell.str "Rajkot", Cell.str "Safe", Cell.na, Cell.num ⟨10, 100⟩],
   [Cell.str "GUJARAT", Cell.str "Surat", Cell.str "Safe", Cell.na, Cell.na],
   [Cell.str "GUJARAT", Cell.str "Anand", Cell.str "Safe", Cell.na, Cell.num ⟨20, 100⟩]]

/-- The percentage cells of `rowsPct`. -/
def cellsPct : List Cell := [Cell.num ⟨10, 100⟩, Cell.na, Cell.num ⟨20, 100⟩]

/-- The district cells of `df2025` (its `District` column). -/
def dcellsA : List Cell := [Cell.str "Rajkot", Cell.str "Jamnagar", Cell.str "Moga"]

/-! ### Helper lemmas -/

/-- Characterization of the prefix test. -/
theorem listStartsWith_iff (p t : List Char) :
    listStartsWith p t = true ↔ ∃ r, t = p ++ r := by
  induction p generalizing t with
  | nil => simp [listStartsWith]
  | cons c cs ih =>
    cases t with
    | nil => simp [listStartsWith]
    | cons d ds =>
      simp only [listStartsWith, Bool.and_eq_true, beq_iff_eq, ih, List.cons_append,
        List.cons.injEq]
      constructor
      · rintro ⟨rfl, r, rfl⟩
        exact ⟨r, rfl, rfl⟩
      · rintro ⟨r, rfl, rfl⟩
        exact ⟨rfl, r, rfl⟩

/-- Characterization of the substring test. -/
theorem listHasSub_iff (p t : List Char) :
    listHasSub p t = true ↔ ∃ l r, t = l ++ (p ++ r) := by
  induction t with
  | nil =>
    simp only [listHasSub, listStartsWith_iff]
    constructor
    · rintro ⟨r, hr⟩
      exact ⟨[], r, by simpa using hr⟩
    · rintro ⟨l, r, hlr⟩
      have h := (List.append_eq_nil).mp hlr.symm
      exact ⟨r, h.2.symm⟩
  | cons d ds ih =>
    simp only [listHasSub, Bool.or_eq_true, listStartsWith_iff, ih]
    constructor
    · rintro (⟨r, hr⟩ | ⟨l, r, hlr⟩)
      · exact ⟨[], r, by simpa using hr⟩
      · exact ⟨d :: l, r, by simp [hlr]⟩
    · rintro ⟨l, r, hlr⟩
      cases l with
      | nil => exact Or.inl ⟨r, by simpa using hlr⟩
      | cons e es =>
        rw [List.cons_append] at hlr
        injection hlr with h1 h2
        exact Or.inr ⟨es, r, h2⟩

/-- Substring containment is transitive. -/
theorem listHasSub_trans {a b c : List Char} (h1 : listHasSub a b = true)
    (h2 : listHasSub b c = true) : listHasSub a c = true := by
  rw [listHasSub_iff] at h1 h2 ⊢
  obtain ⟨l1, r1, rfl⟩ := h1
  obtain ⟨l2, r2, rfl⟩ := h2
  exact ⟨l2 ++ l1, r1 ++ r2, by simp⟩

/-- Python substring containment is transitive. -/
theorem inStr_trans {a b c : String} (h1 : inStr a b = true)
    (h2 : inStr b c = true) : inStr a c = true :=
  listHasSub_trans h1 h2

/-- Membership through the stable insertion. -/
theorem mem_insertByLenDesc {a x : String} {l : List String} :
    a ∈ insertByLenDesc x l ↔ a = x ∨ a ∈ l := by
  induction l with
  | nil => simp [insertByLenDesc]
  | cons y ys ih =>
    simp only [insertByLenDesc]
    split
    · simp only [List.mem_cons, ih]
      tauto
    · simp [List.mem_cons]

/-- The descending-length sort preserves membership. -/
theorem mem_sortByLenDesc {a : String} {l : List String} :
    a ∈ sortByLenDesc l ↔ a ∈ l := by
  induction l with
  | nil => simp [sortByLenDesc]
  | cons x xs ih => simp [sortByLenDesc, mem_insertByLenDesc, ih]

/-- The code's severity scan computes the spec's if-chain. -/
theorem severityScan_eq_spec (statuses : List String) :
    severityScan statuses = specSeverityScan statuses := by
  unfold severityScan specSeverityScan severity_order
  cases h1 : statuses.any (fun status => inStr (pyLower "Over Exploited") (pyLower status)) <;>
    cases h2 : statuses.any (fun status => inStr (pyLower "Critical") (pyLower status)) <;>
      cases h3 : statuses.any (fun status => inStr (pyLower "Semi Critical") (pyLower status)) <;>
        cases h4 : statuses.any (fun status => inStr (pyLower "Safe") (pyLower status)) <;>
          simp [List.find?, h1, h2, h3, h4]

/-- When some extraction value is numeric, the displayed total is the
formatted sum of the numeric values (missing/non-numeric excluded). -/
theorem extractionStr_valid {cols : List String} {rows : List (List Cell)}
    {cells : List Cell} (hc : colCells cols rows COL_EXTRACTION_NORM = some cells)
    (hv : cells.filterMap toNumeric ≠ []) :
    extractionStr cols rows = fmtComma2 (qSum (cells.filterMap toNumeric)) := by
  unfold extractionStr
  rw [hc]
  cases hn : cells.filterMap toNumeric with
  | nil => exact absurd hn hv
  | cons q qs => simp [hn]

/-! ### Claim theorems -/

/-- Claim C5: overall-status selection is a deterministic function of the
observed category values: it scans Over Exploited, Critical, Semi Critical,
Safe in that order and returns the first level whose label occurs as a
case-insensitive substring of any observed value, "Mixed/Uncategorized"
only when none match; for observed statuses Safe and Critical the result
is Critical. -/
theorem C5_overall_status_selection :
    (∀ statuses : List String, severityScan statuses = specSeverityScan statuses) ∧
    severityScan ["Safe", "Critical"] = "Critical" ∧
    severityScan ["Critical", "Safe"] = "Critical" :=
  ⟨severityScan_eq_spec, rfl, rfl⟩

/-- Claim C10: the severity scan never returns "Semi Critical" (because
"critical" is a substring of every category value containing
"semi critical", the Critical test fires first); in particular rows whose
category values all read "Semi Critical" or "Semicritical" yield
"Critical". -/
theorem C10_scan_never_semi_critical :
    (∀ statuses : List String, severityScan statuses ≠ "Semi Critical") ∧
    (∀ statuses : List String, statuses ≠ [] →
      (∀ s ∈ statuses, s = "Semi Critical" ∨ s = "Semicritical") →
      severityScan statuses = "Critical") := by
  constructor
  · intro statuses h
    rw [severityScan_eq_spec] at h
    unfold specSeverityScan at h
    by_cases h1 : statuses.any
        (fun status => inStr (pyLower "Over Exploited") (pyLower status)) = true
    · rw [if_pos h1] at h
      exact absurd h (by decide)
    · rw [if_neg h1] at h
      by_cases h2 : statuses.any
          (fun status => inStr (pyLower "Critical") (pyLower status)) = true
      · rw [if_pos h2] at h
        exact absurd h (by decide)
      · rw [if_neg h2] at h
        by_cases h3 : statuses.any
            (fun status => inStr (pyLower "Semi Critical") (pyLower status)) = true
        · obtain ⟨st, hmem, hsub⟩ := List.any_eq_true.mp h3
          exact h2 (List.any_eq_true.mpr ⟨st, hmem, inStr_trans (by rfl) hsub⟩)
        · rw [if_neg h3] at h
          by_cases h4 : statuses.any
              (fun status => inStr (pyLower "Safe") (pyLower status)) = true
          · rw [if_pos h4] at h
            exact absurd h (by decide)
          · rw [if_neg h4] at h
            exact absurd h (by decide)
  · intro statuses hne hall
    rw [severityScan_eq_spec]
    unfold specSeverityScan
    have h1 : statuses.any
        (fun status => inStr (pyLower "Over Exploited") (pyLower status)) = false := by
      rw [List.any_eq_false]
      intro s hs
      rcases hall s hs with rfl | rfl <;> decide
    have h2 : statuses.any
        (fun status => inStr (pyLower "Critical") (pyLower status)) = true := by
      cases statuses with
      | nil => exact absurd rfl hne
      | cons s rest =>
        rcases hall s (List.mem_cons_self s rest) with rfl | rfl <;>
          exact List.any_eq_true.mpr ⟨_, List.mem_cons_self _ _, by decide⟩
    simp [h1, h2]

/-- Witness for C10 at concrete inputs. -/
theorem C10_witness :
    severityScan ["Semi Critical"] ≠ "Semi Critical" ∧
    severityScan ["Semicritical"] = "Critical" :=
  ⟨C10_scan_never_semi_critical.1 ["Semi Critical"],
   C10_scan_never_semi_critical.2 ["Semicritical"] (by decide) (by decide)⟩

/-- Claim C7: when every extraction value of the matched rows is missing or
non-numeric the displayed total is the "Data unavailable or zero" message,
not a number; when some value is numeric the displayed total is the
formatted sum of the numeric values; the numeric rendering "0.00" can only
arise when at least one value is numeric. -/
theorem C7_data_unavailable_not_zero (cols : List String) (rows : List (List Cell))
    (cells : List Cell) (hc : colCells cols rows COL_EXTRACTION_NORM = some cells) :
    (cells.filterMap toNumeric = [] →
      extractionStr cols rows = "Data unavailable or zero") ∧
    (cells.filterMap toNumeric ≠ [] →
      extractionStr cols rows = fmtComma2 (qSum (cells.filterMap toNumeric))) ∧
    (extractionStr cols rows = "0.00" → cells.filterMap toNumeric ≠ []) := by
  have hnilcase : cells.filterMap toNumeric = [] →
      extractionStr cols rows = "Data unavailable or zero" := by
    intro hnil
    unfold extractionStr
    rw [hc]
    simp [hnil, qSum, Q.ofInt, Q.isZero]
  refine ⟨hnilcase, fun hv => extractionStr_valid hc hv, ?_⟩
  intro h0 hnil
  rw [hnilcase hnil] at h0
  exact absurd h0 (by decide)

/-- Witness for C7: all-missing extraction cells display the unavailability
message; all-numeric cells display the formatted sum. -/
theorem C7_witness :
    extractionStr colsA [rowP1] = "Data unavailable or zero" ∧
    extractionStr colsA [rowG1] = "7,000.25" :=
  ⟨(C7_data_unavailable_not_zero colsA [rowP1] [Cell.na] rfl).1 (by decide),
   ((C7_data_unavailable_not_zero colsA [rowG1] [Cell.num ⟨700025, 100⟩] rfl).2.1
      (by decide)).trans (by rfl)⟩

/-- Claim C8: the displayed average percentage is the arithmetic mean of
the numeric percentage values of the matched rows — missing/non-numeric
entries excluded from both the sum and the divisor — multiplied by 100 and
rendered to two decimals. -/
theorem C8_percentage_mean_excludes_missing (cols : List String)
    (rows : List (List Cell)) (cells : List Cell)
    (hc : colCells cols rows COL_PERCENTAGE_NORM = some cells)
    (hv : cells.filterMap toNumeric ≠ []) :
    percentageStr cols rows =
      fmt2 (Q.mul100 ((qSum (cells.filterMap toNumeric)).divNat
        (cells.filterMap toNumeric).length)) ++ "%" := by
  unfold percentageStr
  rw [hc]
  cases hn : cells.filterMap toNumeric with
  | nil => exact absurd hn hv
  | cons q qs => simp [hn]

/-- Witness for C8: percentage cells 0.10, missing, 0.20 display 15.00%
(the mean over the two numeric values), not 10.00%. -/
theorem C8_witness : percentageStr colsA rowsPct = "15.00%" :=
  (C8_percentage_mean_excludes_missing colsA rowsPct cellsPct rfl (by decide)).trans
    (by rfl)

/-- Claim C2 (evaluated at the failing inputs): the core lookup is not
total — with a year table lacking the category column, a state query
reaches `.get(category).dropna()` on `None` and raises `AttributeError`;
with a district query whose first matched row has a missing state cell,
`.title()` on a non-string raises `AttributeError`.  Both escape
`get_data_lookup_response` (only the outer endpoint's catch-all sees them). -/
theorem C2_crash_at_failing_inputs :
    get_data_lookup_response stNoCat "groundwater in Punjab" =
      Except.error PyErr.attributeError ∧
    get_data_lookup_response stBad "data for Moga" =
      Except.error PyErr.attributeError :=
  ⟨rfl, rfl⟩

set_option maxRecDepth 4000 in
/-- Counterexample to claim C3: the token "2019" matches no alternative of
the year pattern, so the routine silently answers for the default year
2025; the response never mentions 2019 and is not the year-not-available
message. -/
theorem C3_counterexample :
    get_data_lookup_response stA "extraction in Gujarat in 2019" =
      Except.ok "**INGRES State Summary for Gujarat (2025):**\n• **Most Severe Groundwater Status:** Critical\n• **Average Extraction Percentage:** 45.00%\n• **TOTAL Annual Extractable Resource (Ham):** 12,345.60\n(Aggregated from 2 assessment units.)" ∧
    inStr "2019" "**INGRES State Summary for Gujarat (2025):**\n• **Most Severe Groundwater Status:** Critical\n• **Average Extraction Percentage:** 45.00%\n• **TOTAL Annual Extractable Resource (Ham):** 12,345.60\n(Aggregated from 2 assessment units.)" = false ∧
    findYearMatch stA.yearAlts "extraction in Gujarat in 2019" = none :=
  ⟨rfl, rfl, rfl⟩

/-- Claim C3 as amended: the routine resolves a target year — the first
query token matching the year pattern (whose alternatives are the loaded
years after a successful load, or the five configured sheet names if the
load failed), or the default year when no token matches — and whenever the
target year is absent from the loaded dictionary it returns the distinct
year-not-available message naming the target year and listing the
actually-loaded years.  The message can therefore also name the default
year for a query with no pattern token (e.g. any query after a failed
load); a token such as "2019" never matches the pattern, never becomes
the target year, and never produces this message about itself. -/
theorem C3_year_not_available (st : AppState) (q y : String)
    (hy : (findYearMatch st.yearAlts q).getD st.defaultYear = y)
    (hmiss : lookupYear st.dataset y = none) :
    get_data_lookup_response st q =
      Except.ok (yearNotAvailableMsg y st.loadedYears) := by
  unfold get_data_lookup_response
  rw [hy, hmiss]

/-- Witness for C3 as amended, in the failed-load state (static pattern,
nothing loaded): a query naming 2024 gets the message about 2024, and a
query with no year token at all gets the message about the default year
2025 — both listing the (empty) loaded years. -/
theorem C3_witness :
    get_data_lookup_response stInit "data for 2024" =
      Except.ok (yearNotAvailableMsg "2024" stInit.loadedYears) ∧
    get_data_lookup_response stInit "data for Punjab" =
      Except.ok (yearNotAvailableMsg "2025" stInit.loadedYears) :=
  ⟨C3_year_not_available stInit "data for 2024" "2024" rfl rfl,
   C3_year_not_available stInit "data for Punjab" "2025" rfl rfl⟩

/-- Counterexample to claim C4: in "data on the upper aquifer" the state
abbreviation "UP" occurs only inside the word "upper" — the boundary-aware
search finds it at no word boundary — yet the interpreter selects it as
the target unit, and the routine then reports the unit as not found. -/
theorem C4_counterexample :
    extractState (pyLower "data on the upper aquifer") = some "UP" ∧
    reWordSearch (lowerL "data on the upper aquifer".toList) (lowerL "UP".toList)
      = false ∧
    get_data_lookup_response stA "data on the upper aquifer" =
      Except.ok (unitNotFoundMsg "UP" "2025") :=
  ⟨rfl, rfl, rfl⟩

/-- Claim C4 as amended: unit extraction uses naive case-insensitive
substring containment, so any known state whose lowercased name occurs
anywhere in the lowercased query (word-embedded or not) makes the state
extraction succeed; word-boundary semantics apply only later, when rows
are filtered. -/
theorem C4_naive_substring_selection (q s : String) (hs : s ∈ known_states)
    (h : inStr (pyLower s) (pyLower q) = true) :
    (extractState (pyLower q)).isSome = true := by
  unfold extractState
  rw [List.find?_isSome]
  exact ⟨s, mem_sortByLenDesc.mpr hs, h⟩

/-- Witness for C4 as amended: "UP" embedded in "upper" suffices for the
state extraction to fire. -/
theorem C4_witness :
    (extractState (pyLower "data on the upper aquifer")).isSome = true :=
  C4_naive_substring_selection "data on the upper aquifer" "UP" (by decide) (by rfl)

/-- Claim C1: for a query whose year resolves to a loaded year and whose
unit extraction resolves to a state (no district matched), with matching
rows and at least one numeric extraction value (and the category column
present so that no exception fires), the response's reported extraction
total is the formatted sum of the extraction column over the matching
rows, missing/non-numeric entries excluded from the sum. -/
theorem C1_state_extraction_total (st : AppState) (q Y S ost : String)
    (df : DataFrame) (scells extcells : List Cell)
    (hY : findYearMatch st.yearAlts q = some Y)
    (hdf : lookupYear st.dataset Y = some df)
    (hdist : extractDistrict df (pyLower q) = none)
    (hstate : extractState (pyLower q) = some S)
    (hscol : colCells df.cols df.rows COL_STATE_NORM = some scells)
    (hne : filterRows df.rows scells S ≠ [])
    (hext : colCells df.cols (filterRows df.rows scells S) COL_EXTRACTION_NORM =
      some extcells)
    (hvalid : extcells.filterMap toNumeric ≠ [])
    (host : overallStatusOf df.cols (filterRows df.rows scells S) = Except.ok ost) :
    get_data_lookup_response st q =
      Except.ok (responseText "State Summary" S "" Y ost
        (percentageStr df.cols (filterRows df.rows scells S))
        (fmtComma2 (qSum (extcells.filterMap toNumeric)))
        (filterRows df.rows scells S).length) := by
  unfold get_data_lookup_response
  rw [hY, Option.getD_some, hdf]
  simp only [hdist, hstate, Option.map_some', hscol]
  cases hfr : filterRows df.rows scells S with
  | nil => exact absurd hfr hne
  | cons r rs =>
    rw [hfr] at host hext
    simp only [parentStateStr, host, if_true]
    rw [extractionStr_valid hext hvalid]

/-- Witness for C1: the spec's concrete scenario — Gujarat 2025 rows
summing to 12345.60 Ham with average percentage 45.00%. -/
theorem C1_witness :
    get_data_lookup_response stA "extraction in Gujarat in 2025" =
      Except.ok "**INGRES State Summary for Gujarat (2025):**\n• **Most Severe Groundwater Status:** Critical\n• **Average Extraction Percentage:** 45.00%\n• **TOTAL Annual Extractable Resource (Ham):** 12,345.60\n(Aggregated from 2 assessment units.)" := by
  rw [C1_state_extraction_total stA "extraction in Gujarat in 2025" "2025" "GUJARAT"
    "Critical" df2025 scellsA [Cell.num ⟨700025, 100⟩, Cell.num ⟨534535, 100⟩]
    rfl rfl rfl rfl rfl (by decide) rfl (by decide) rfl]
  rfl

/-- Claim C6: for a query whose extracted unit is a district name — a real
(nonempty) one, so that Python's `if unit_name:` truthiness test passes —
with at least one matching row whose first matched row carries a (string)
state cell, the response is labelled "District/Unit Summary" and includes
the parent state taken from the state cell of the first matching row. -/
theorem C6_district_summary_parent_state (st : AppState) (q Y d ps ost : String)
    (df : DataFrame) (dcells : List Cell) (rest : List Cell)
    (hY : (findYearMatch st.yearAlts q).getD st.defaultYear = Y)
    (hdf : lookupYear st.dataset Y = some df)
    (hdist : extractDistrict df (pyLower q) = some d)
    (hd : d ≠ "")
    (hdcol : colCells df.cols df.rows COL_DISTRICT_NORM = some dcells)
    (hne : filterRows df.rows dcells d ≠ [])
    (hpar : colCells df.cols (filterRows df.rows dcells d) COL_STATE_NORM =
      some (Cell.str ps :: rest))
    (host : overallStatusOf df.cols (filterRows df.rows dcells d) = Except.ok ost) :
    get_data_lookup_response st q =
      Except.ok (responseText "District/Unit Summary" d
        (" (in " ++ titleCase ps ++ ")") Y ost
        (percentageStr df.cols (filterRows df.rows dcells d))
        (extractionStr df.cols (filterRows df.rows dcells d))
        (filterRows df.rows dcells d).length) := by
  unfold get_data_lookup_response
  rw [hY, hdf]
  simp only [hdist, if_neg hd, hdcol]
  cases hfr : filterRows df.rows dcells d with
  | nil => exact absurd hfr hne
  | cons r rs =>
    rw [hfr] at host hpar
    simp only [parentStateStr, host, hpar, Bool.false_eq_true, if_false]

/-- Witness for C6: a Rajkot query answers with the district label and the
parent state Gujarat read from the first matching row. -/
theorem C6_witness :
    get_data_lookup_response stA "extraction in Rajkot 2025" =
      Except.ok "**INGRES District/Unit Summary for Rajkot (in Gujarat) (2025):**\n• **Most Severe Groundwater Status:** Safe\n• **Average Extraction Percentage:** 40.00%\n• **TOTAL Annual Extractable Resource (Ham):** 7,000.25\n(Aggregated from 1 assessment units.)" := by
  rw [C6_district_summary_parent_state stA "extraction in Rajkot 2025" "2025" "Rajkot"
    "GUJARAT" "Safe" df2025 dcellsA [] rfl rfl rfl (by decide) rfl (by decide) rfl rfl]
  rfl

/-- Claim C9: a query containing an FAQ keyword (case-insensitively) gets
the canned answer — the first matching keyword in the table's insertion
order — and the data lookup is never consulted (the reply is the same
under any dataset state); when no keyword matches, the FAQ matcher signals
no match and the handler falls through to the data lookup. -/
theorem C9_faq_short_circuit (st st2 : AppState) (q : String) :
    (∀ (i : Nat) (k a : String), faq_responses[i]? = some (k, a) →
      inStr k (pyLower q) = true →
      (∀ (j : Nat) (k2 a2 : String), j < i → faq_responses[j]? = some (k2, a2) →
        inStr k2 (pyLower q) = false) →
      chatRespond st q = Except.ok a ∧ chatRespond st q = chatRespond st2 q) ∧
    ((∀ kv ∈ faq_responses, inStr kv.1 (pyLower q) = false) →
      get_faq_response q = none ∧
      chatRespond st q = get_data_lookup_response st q) := by
  constructor
  · intro i k a hget hk hear
    have hfind : faq_responses.find? (fun kv => inStr kv.1 (pyLower q)) = some (k, a) := by
      rcases i with _ | _ | _ | _ | i
      · injection hget with h
        injection h with h1 h2
        subst h1; subst h2
        exact List.find?_cons_of_pos _ hk
      · injection hget with h
        injection h with h1 h2
        subst h1; subst h2
        have e0 := hear 0 "what is ingres" "INGRES is the India Ground Water Resource Estimation System, a GIS-based platform developed by CGWB and IIT Hyderabad for groundwater assessment." (by omega) rfl
        unfold faq_responses
        rw [List.find?_cons_of_neg _ (by simp [e0])]
        exact List.find?_cons_of_pos _ hk
      · injection hget with h
        injection h with h1 h2
        subst h1; subst h2
        have e0 := hear 0 "what is ingres" "INGRES is the India Ground Water Resource Estimation System, a GIS-based platform developed by CGWB and IIT Hyderabad for groundwater assessment." (by omega) rfl
        have e1 := hear 1 "categorization definition" "Groundwater units are categorized based on the ratio of annual extraction to recharge (e.g., Safe, Critical, Over Exploited)." (by omega) rfl
        unfold faq_responses
        rw [List.find?_cons_of_neg _ (by simp [e0]), List.find?_cons_of_neg _ (by simp [e1])]
        exact List.find?_cons_of_pos _ hk
      · injection hget with h
        injection h with h1 h2
        subst h1; subst h2
        have e0 := hear 0 "what is ingres" "INGRES is the India Ground Water Resource Estimation System, a GIS-based platform developed by CGWB and IIT Hyderabad for groundwater assessment." (by omega) rfl
        have e1 := hear 1 "categorization definition" "Groundwater units are categorized based on the ratio of annual extraction to recharge (e.g., Safe, Critical, Over Exploited)." (by omega) rfl
        have e2 := hear 2 "annual extractable resource" "This refers to the total volume of groundwater (in Ham) estimated to be available for withdrawal in a given year." (by omega) rfl
        unfold faq_responses
        rw [List.find?_cons_of_neg _ (by simp [e0]), List.find?_cons_of_neg _ (by simp [e1]),
          List.find?_cons_of_neg _ (by simp [e2])]
        exact List.find?_cons_of_pos _ hk
      · simp [faq_responses] at hget
    have hfaq : get_faq_response q = some a := by
      unfold get_faq_response
      rw [hfind]
      rfl
    constructor
    · unfold chatRespond
      rw [hfaq]
    · unfold chatRespond
      rw [hfaq]
  · intro hall
    have hfind : faq_responses.find? (fun kv => inStr kv.1 (pyLower q)) = none := by
      rw [List.find?_eq_none]
      intro kv hkv
      simp [hall kv hkv]
    have hfaq : get_faq_response q = none := by
      unfold get_faq_response
      rw [hfind]
      rfl
    refine ⟨hfaq, ?_⟩
    unfold chatRespond
    rw [hfaq]

/-- Witness for C9: the query names both the FAQ keyword and the state
Gujarat, and the reply is the canned FAQ answer. -/
theorem C9_witness :
    chatRespond stA "Who developed INGRES for Gujarat" =
      Except.ok "INGRES was developed by the Central Ground Water Board (CGWB) in collaboration with IIT Hyderabad." ∧
    inStr (pyLower "GUJARAT") (pyLower "Who developed INGRES for Gujarat") = true := by
  refine ⟨((C9_faq_short_circuit stA stA "Who developed INGRES for Gujarat").1 3
    "who developed ingres"
    "INGRES was developed by the Central Ground Water Board (CGWB) in collaboration with IIT Hyderabad."
    rfl (by rfl) ?_).1, by rfl⟩
  intro j k2 a2 hj hget
  interval_cases j
  · injection hget with h
    injection h with h1 h2
    subst h1
    rfl
  · injection hget with h
    injection h with h1 h2
    subst h1
    rfl
  · injection hget with h
    injection h with h1 h2
    subst h1
    rfl
